import Mathlib

/-!
Verification of the dimmer overlay programs.

The repository ships two near-identical C programs: a 20-level variant
(`c_src/dimmer_passthrough_20lvl.c`) and a 5-level variant (the C source
shipped next to `dim.sh`).  Each parses an optional integer argument with
`atoi`, clamps it to `[1, MAX_LEVEL]`, computes a 32-bit opacity word,
creates a full-screen override-redirect window, sets the window-type and
opacity properties, clears the input shape when the shape extension is
available, maps the window, sleeps 3600 seconds and exits 0; it exits 1
immediately when the display cannot be opened.

The level-to-opacity arithmetic is embedded directly; the X11 start-up
path is embedded as a function from an environment (display availability,
shape-extension availability, screen size) and the optional argv[1]
string to the observable outcome (exit code, window geometry, properties
set, shape cleared, mapped, seconds slept).
-/

namespace Dimmer

/-- Characters skipped by the C `isspace` test that `atoi` performs before
converting: space, tab, newline, vertical tab, form feed, carriage return. -/
def isSpaceC (c : Char) : Bool :=
  c == ' ' || c == '\t' || c == '\n' || c == '\x0b' || c == '\x0c' || c == '\r'

/-- Leading-whitespace skipping performed by `atoi`. -/
def skipSpace : List Char → List Char
  | [] => []
  | c :: cs => if isSpaceC c then skipSpace cs else c :: cs

/-- Digit accumulation performed by `atoi`: consume decimal digits from the
front, stopping at the first non-digit. -/
def readDigits : List Char → Nat → Nat
  | [], acc => acc
  | c :: cs, acc => if c.isDigit then readDigits cs (acc * 10 + (c.toNat - 48)) else acc

/-- Embedding of C `atoi` as used by both variants on `argv[1]`: skip
whitespace, read one optional sign, then read decimal digits; when no
digits follow, the result is 0. -/
def atoi (s : List Char) : Int :=
  match skipSpace s with
  | [] => 0
  | c :: cs =>
    if c = '-' then -(readDigits cs 0 : Int)
    else if c = '+' then (readDigits cs 0 : Int)
    else (readDigits (c :: cs) 0 : Int)

/-- Embedding of the clamp both variants perform:
`if (level < 1) level = 1; if (level > MAX_LEVEL) level = MAX_LEVEL;`. -/
def clampLevel (maxLevel level : Int) : Int :=
  let l1 := if level < 1 then 1 else level
  if l1 > maxLevel then maxLevel else l1

/-- Embedding of the initial level: `int level = DFLT; if (argc > 1) level
= atoi(argv[1]);` where `DFLT` is 3 in the 5-level variant and 10 in the
20-level variant.  `arg` is `argv[1]` when present. -/
def initialLevel (dflt : Int) (arg : Option (List Char)) : Int :=
  match arg with
  | none => dflt
  | some s => atoi s

/-- Embedding of the 20-level opacity computation
`unsigned long opacity = (unsigned long long)level * 0xFF000000ULL / 20ULL;`:
the `int` level is converted to `unsigned long long` (reduction mod 2^64),
the product is taken mod 2^64, then divided by 20. -/
def opacity20 (level : Int) : Nat :=
  ((level % (2 ^ 64 : Int)).toNat * 0xFF000000) % 2 ^ 64 / 20

/-- Embedding of the 5-level `switch (level)` opacity table, including its
(unreachable after clamping) `default` branch. -/
def opacity5 (level : Int) : Nat :=
  if level = 1 then 0x33000000
  else if level = 2 then 0x66000000
  else if level = 3 then 0x99000000
  else if level = 4 then 0xCC000000
  else if level = 5 then 0xFF000000
  else 0x99000000

/-- Environment a run of either program observes: whether `XOpenDisplay`
succeeds, whether `XShapeQueryExtension` reports the shape extension, and
the screen dimensions. -/
structure XEnv where
  displayOk : Bool
  shapeAvail : Bool
  width : Nat
  height : Nat
deriving DecidableEq

/-- Observable outcome of a run: process exit code, whether the window was
created and its geometry, whether the window-type hint was set, the opacity
property value if set, whether the input shape was cleared (click-through),
whether the window was mapped, and the seconds slept. -/
structure RunResult where
  exitCode : Nat
  windowCreated : Bool
  windowWidth : Nat
  windowHeight : Nat
  windowTypeSet : Bool
  opacityProp : Option Nat
  inputShapeCleared : Bool
  mapped : Bool
  sleptSeconds : Nat
deriving DecidableEq

/-- Outcome when `XOpenDisplay` fails: `return 1` before any other action. -/
def noActionResult : RunResult :=
  ⟨1, false, 0, 0, false, none, false, false, 0⟩

/-- Embedding of `main` of the 5-level variant: open display (exit 1 on
failure), create the full-screen window, set the window type, clamp the
level from `argv[1]` (default 3), set the table opacity, clear the input
shape exactly when the shape extension is available, map, sleep 3600
seconds, exit 0. -/
def run5 (env : XEnv) (arg : Option (List Char)) : RunResult :=
  if env.displayOk then
    let level := clampLevel 5 (initialLevel 3 arg)
    ⟨0, true, env.width, env.height, true, some (opacity5 level),
      env.shapeAvail, true, 3600⟩
  else noActionResult

/-- Embedding of `main` of the 20-level variant: identical to the 5-level
variant except the default level is 10, the clamp bound is 20 and the
opacity is the linear formula. -/
def run20 (env : XEnv) (arg : Option (List Char)) : RunResult :=
  if env.displayOk then
    let level := clampLevel 20 (initialLevel 10 arg)
    ⟨0, true, env.width, env.height, true, some (opacity20 level),
      env.shapeAvail, true, 3600⟩
  else noActionResult

/-- Round-half-up division, the `round` of the specification formula. -/
def roundDiv (a b : Nat) : Nat := (a + b / 2) / b

/-- Every field of a `RunResult` except `inputShapeCleared`. -/
def visibleOutcome (r : RunResult) :
    Nat × Bool × Nat × Nat × Bool × Option Nat × Bool × Nat :=
  (r.exitCode, r.windowCreated, r.windowWidth, r.windowHeight,
   r.windowTypeSet, r.opacityProp, r.mapped, r.sleptSeconds)

/-- The clamp lands in `[1, maxLevel]` whenever `1 ≤ maxLevel`. -/
theorem clampLevel_bounds (m l : Int) (hm : 1 ≤ m) :
    1 ≤ clampLevel m l ∧ clampLevel m l ≤ m := by
  simp only [clampLevel]
  split_ifs <;> omega

/-- Closed form of the 20-level formula on clamped levels: no reduction
mod 2^64 occurs and the division is exact. -/
theorem opacity20_closed (l : Int) (h1 : 1 ≤ l) (h2 : l ≤ 20) :
    opacity20 l = l.toNat * 0x0CC00000 := by
  interval_cases l <;> decide

/-- In a list of characters with no decimal digit, `atoi` finds no digit
either after skipping whitespace. -/
theorem skipSpace_nondigit (s : List Char) (h : ∀ c ∈ s, c.isDigit = false) :
    ∀ c ∈ skipSpace s, c.isDigit = false := by
  induction s with
  | nil => intro c hc; exact absurd hc (by simp [skipSpace])
  | cons a as ih =>
    intro c hc
    rw [skipSpace] at hc
    split at hc
    · exact ih (fun x hx => h x (List.mem_cons_of_mem a hx)) c hc
    · exact h c hc

/-- `readDigits` returns its accumulator 0 when the first character is not
a digit or the list is empty. -/
theorem readDigits_zero (s : List Char) (h : ∀ c ∈ s, c.isDigit = false) :
    readDigits s 0 = 0 := by
  cases s with
  | nil => rfl
  | cons c cs => simp [readDigits, h c (List.mem_cons_self c cs)]

/-- A string with no decimal digit converts to 0 under `atoi`. -/
theorem atoi_all_nondigit (s : List Char) (h : ∀ c ∈ s, c.isDigit = false) :
    atoi s = 0 := by
  have h2 := skipSpace_nondigit s h
  rw [atoi]
  rcases hss : skipSpace s with - | ⟨c, cs⟩
  · rfl
  · rw [hss] at h2
    have hcs : ∀ x ∈ cs, x.isDigit = false :=
      fun x hx => h2 x (List.mem_cons_of_mem c hx)
    dsimp only
    split_ifs with hminus hplus
    · rw [readDigits_zero cs hcs]; rfl
    · rw [readDigits_zero cs hcs]; rfl
    · rw [readDigits_zero (c :: cs) h2]; rfl

/-- Claim C1: for the 20-level variant, on every clamped level in
`[1, 20]` the computed opacity equals the round of
`level * 0xFF000000 / 20`; the truncating division agrees with rounding
because 20 divides 0xFF000000; level 20 maps to 0xFF000000 and level 1 to
0x0CC00000; and the 64-bit intermediate product never reaches 2^64. -/
theorem opacity20_round_exact (l : Int) (h1 : 1 ≤ l) (h2 : l ≤ 20) :
    opacity20 l = roundDiv (l.toNat * 0xFF000000) 20
      ∧ (20 : Nat) ∣ 0xFF000000
      ∧ opacity20 20 = 0xFF000000
      ∧ opacity20 1 = 0x0CC00000
      ∧ l.toNat * 0xFF000000 < 2 ^ 64 := by
  refine ⟨?_, by decide, by decide, by decide, ?_⟩
  · interval_cases l <;> decide
  · interval_cases l <;> decide

/-- Witness for C1 at the maximum level 20. -/
theorem opacity20_round_exact_witness :
    opacity20 20 = roundDiv ((20 : Int).toNat * 0xFF000000) 20
      ∧ (20 : Nat) ∣ 0xFF000000
      ∧ opacity20 20 = 0xFF000000
      ∧ opacity20 1 = 0x0CC00000
      ∧ (20 : Int).toNat * 0xFF000000 < 2 ^ 64 :=
  opacity20_round_exact 20 (by decide) (by decide)

/-- Claim C2 counterexample: requesting level 1 from the 20-level variant
writes opacity 0x0CC00000, whose low 24 bits are 0xC00000, not zero, so
the RGB bytes are not always zero in both variants. -/
theorem rgb_bits_nonzero_at_level_one :
    (run20 ⟨true, true, 1920, 1080⟩ (some ['1'])).opacityProp = some 0x0CC00000
      ∧ 0x0CC00000 % 2 ^ 24 = 0xC00000
      ∧ (0xC00000 : Nat) ≠ 0 := by decide

/-- Claim C2 as amended: for every integer input level the 5-level variant
writes an opacity whose low 24 bits are zero; the 20-level variant writes
an opacity whose low 22 bits are zero, and its low 24 bits are zero
exactly when the clamped level is a multiple of 4. -/
theorem rgb_bits_amended (l : Int) :
    opacity5 (clampLevel 5 l) % 2 ^ 24 = 0
      ∧ opacity20 (clampLevel 20 l) % 2 ^ 22 = 0
      ∧ (opacity20 (clampLevel 20 l) % 2 ^ 24 = 0 ↔ clampLevel 20 l % 4 = 0) := by
  refine ⟨?_, ?_, ?_⟩
  · rcases clampLevel_bounds 5 l (by norm_num) with ⟨ha, hb⟩
    generalize hk : clampLevel 5 l = k at ha hb ⊢
    interval_cases k <;> decide
  · rcases clampLevel_bounds 20 l (by norm_num) with ⟨ha, hb⟩
    generalize hk : clampLevel 20 l = k at ha hb ⊢
    interval_cases k <;> decide
  · rcases clampLevel_bounds 20 l (by norm_num) with ⟨ha, hb⟩
    generalize hk : clampLevel 20 l = k at ha hb ⊢
    interval_cases k <;> decide

/-- Claim C3: the clamp equals `max(1, min(L, MAX_LEVEL))`, lands in
`[1, MAX_LEVEL]`, is the identity in range; out-of-range levels produce
the same opacity as the nearest boundary level; and a string with no
digit converts to 0 and hence behaves as level 1, in both variants. -/
theorem clamp_behavior (l : Int) (s : List Char)
    (hs : ∀ c ∈ s, c.isDigit = false) :
    clampLevel 5 l = max 1 (min l 5)
      ∧ clampLevel 20 l = max 1 (min l 20)
      ∧ (1 ≤ clampLevel 5 l ∧ clampLevel 5 l ≤ 5)
      ∧ (1 ≤ clampLevel 20 l ∧ clampLevel 20 l ≤ 20)
      ∧ (1 ≤ l → l ≤ 5 → clampLevel 5 l = l)
      ∧ (1 ≤ l → l ≤ 20 → clampLevel 20 l = l)
      ∧ (5 < l → opacity5 (clampLevel 5 l) = opacity5 (clampLevel 5 5))
      ∧ (20 < l → opacity20 (clampLevel 20 l) = opacity20 (clampLevel 20 20))
      ∧ (l ≤ 0 → opacity5 (clampLevel 5 l) = opacity5 (clampLevel 5 1))
      ∧ (l ≤ 0 → opacity20 (clampLevel 20 l) = opacity20 (clampLevel 20 1))
      ∧ atoi s = 0
      ∧ clampLevel 5 (atoi s) = 1
      ∧ clampLevel 20 (atoi s) = 1 := by
  have h0 := atoi_all_nondigit s hs
  have e5 : ∀ x y : Int, clampLevel 5 x = clampLevel 5 y →
      opacity5 (clampLevel 5 x) = opacity5 (clampLevel 5 y) :=
    fun x y h => by rw [h]
  have e20 : ∀ x y : Int, clampLevel 20 x = clampLevel 20 y →
      opacity20 (clampLevel 20 x) = opacity20 (clampLevel 20 y) :=
    fun x y h => by rw [h]
  refine ⟨?_, ?_, ?_, ?_, ?_, ?_, ?_, ?_, ?_, ?_, h0, ?_, ?_⟩
  · simp only [clampLevel]; split_ifs <;> omega
  · simp only [clampLevel]; split_ifs <;> omega
  · exact clampLevel_bounds 5 l (by norm_num)
  · exact clampLevel_bounds 20 l (by norm_num)
  · intro hx hy; simp only [clampLevel]; split_ifs <;> omega
  · intro hx hy; simp only [clampLevel]; split_ifs <;> omega
  · intro hx
    refine e5 l 5 ?_
    simp only [clampLevel]; split_ifs <;> omega
  · intro hx
    refine e20 l 20 ?_
    simp only [clampLevel]; split_ifs <;> omega
  · intro hx
    refine e5 l 1 ?_
    simp only [clampLevel]; split_ifs <;> omega
  · intro hx
    refine e20 l 1 ?_
    simp only [clampLevel]; split_ifs <;> omega
  · rw [h0]; decide
  · rw [h0]; decide

/-- Witness for C3 at level 99 and the digitless string "x". -/
theorem clamp_behavior_witness :
    clampLevel 20 99 = max 1 (min 99 20) ∧ atoi ['x'] = 0 :=
  ⟨(clamp_behavior 99 ['x'] (by decide)).2.1,
   (clamp_behavior 99 ['x'] (by decide)).2.2.2.2.2.2.2.2.2.2.1⟩

/-- Claim C4: the 5-level mapping is exactly the discrete table on every
clamped level in `[1, 5]`. -/
theorem opacity5_table :
    opacity5 1 = 0x33000000 ∧ opacity5 2 = 0x66000000
      ∧ opacity5 3 = 0x99000000 ∧ opacity5 4 = 0xCC000000
      ∧ opacity5 5 = 0xFF000000 := by decide

/-- Claim C5: with no argument the 5-level variant uses level 3 and the
20-level variant uses level 10, and in every environment the run is
identical to the run with that level passed explicitly. -/
theorem default_levels :
    initialLevel 3 none = 3 ∧ initialLevel 10 none = 10
      ∧ (∀ env : XEnv, run5 env none = run5 env (some ['3']))
      ∧ (∀ env : XEnv, run20 env none = run20 env (some ['1', '0'])) := by
  have h3 : atoi ['3'] = 3 := by decide
  have h10 : atoi ['1', '0'] = 10 := by decide
  refine ⟨rfl, rfl, ?_, ?_⟩ <;> intro env <;>
    simp [run5, run20, initialLevel, h3, h10]

/-- Witness for C5 on a concrete environment. -/
theorem default_levels_witness :
    run5 ⟨true, true, 800, 600⟩ none = run5 ⟨true, true, 800, 600⟩ (some ['3']) :=
  default_levels.2.2.1 ⟨true, true, 800, 600⟩

/-- Claim C6: in both variants the exit code is 1 exactly when the display
cannot be opened, in which case nothing else happens; when the display
opens, the run exits 0 after the fixed 3600-second sleep, for every
argument, so no level argument causes a non-zero exit. -/
theorem exit_status (env : XEnv) (arg : Option (List Char)) :
    ((run5 env arg).exitCode = 1 ↔ env.displayOk = false)
      ∧ ((run20 env arg).exitCode = 1 ↔ env.displayOk = false)
      ∧ (env.displayOk = false →
          run5 env arg = noActionResult ∧ run20 env arg = noActionResult)
      ∧ (env.displayOk = true →
          (run5 env arg).exitCode = 0 ∧ (run20 env arg).exitCode = 0
            ∧ (run5 env arg).sleptSeconds = 3600
            ∧ (run20 env arg).sleptSeconds = 3600) := by
  cases hd : env.displayOk <;> simp [run5, run20, hd, noActionResult]

/-- Witness for C6: a closed display yields exit without action. -/
theorem exit_status_witness :
    run5 ⟨false, false, 0, 0⟩ none = noActionResult
      ∧ run20 ⟨false, false, 0, 0⟩ none = noActionResult :=
  (exit_status ⟨false, false, 0, 0⟩ none).2.2.1 rfl

/-- Claim C7: with the shape extension unavailable the input shape is not
cleared, but every other observable of the run — exit code 0, window
created at full screen size, window-type hint, opacity property, mapped,
3600-second sleep — is as with the extension available. -/
theorem shape_extension_degrades (wd ht : Nat) (arg : Option (List Char)) :
    (run5 ⟨true, false, wd, ht⟩ arg).inputShapeCleared = false
      ∧ (run20 ⟨true, false, wd, ht⟩ arg).inputShapeCleared = false
      ∧ visibleOutcome (run5 ⟨true, false, wd, ht⟩ arg)
          = visibleOutcome (run5 ⟨true, true, wd, ht⟩ arg)
      ∧ visibleOutcome (run20 ⟨true, false, wd, ht⟩ arg)
          = visibleOutcome (run20 ⟨true, true, wd, ht⟩ arg)
      ∧ (run5 ⟨true, false, wd, ht⟩ arg).exitCode = 0
      ∧ (run5 ⟨true, false, wd, ht⟩ arg).windowCreated = true
      ∧ (run5 ⟨true, false, wd, ht⟩ arg).windowTypeSet = true
      ∧ (run5 ⟨true, false, wd, ht⟩ arg).opacityProp
          = some (opacity5 (clampLevel 5 (initialLevel 3 arg)))
      ∧ (run5 ⟨true, false, wd, ht⟩ arg).mapped = true
      ∧ (run5 ⟨true, false, wd, ht⟩ arg).sleptSeconds = 3600
      ∧ (run20 ⟨true, false, wd, ht⟩ arg).exitCode = 0
      ∧ (run20 ⟨true, false, wd, ht⟩ arg).windowCreated = true
      ∧ (run20 ⟨true, false, wd, ht⟩ arg).windowTypeSet = true
      ∧ (run20 ⟨true, false, wd, ht⟩ arg).opacityProp
          = some (opacity20 (clampLevel 20 (initialLevel 10 arg)))
      ∧ (run20 ⟨true, false, wd, ht⟩ arg).mapped = true
      ∧ (run20 ⟨true, false, wd, ht⟩ arg).sleptSeconds = 3600 := by
  simp [run5, run20, visibleOutcome]

/-- Witness for C7 on a concrete screen and absent argument. -/
theorem shape_extension_degrades_witness :
    (run5 ⟨true, false, 800, 600⟩ none).inputShapeCleared = false :=
  (shape_extension_degrades 800 600 none).1

/-- Claim C8: the opacity word is a pure function of the argument alone:
two runs of the same variant on the same argument list set the same
opacity property in any two environments where the display opens, and
that value is the clamp-then-map of the parsed level, mentioning no
environment input. -/
theorem opacity_deterministic (e1 e2 : XEnv) (arg : Option (List Char))
    (h1 : e1.displayOk = true) (h2 : e2.displayOk = true) :
    (run5 e1 arg).opacityProp = (run5 e2 arg).opacityProp
      ∧ (run20 e1 arg).opacityProp = (run20 e2 arg).opacityProp
      ∧ (run5 e1 arg).opacityProp
          = some (opacity5 (clampLevel 5 (initialLevel 3 arg)))
      ∧ (run20 e1 arg).opacityProp
          = some (opacity20 (clampLevel 20 (initialLevel 10 arg))) := by
  simp [run5, run20, h1, h2]

/-- Witness for C8 across two different environments. -/
theorem opacity_deterministic_witness :
    (run5 ⟨true, true, 1, 1⟩ none).opacityProp
      = (run5 ⟨true, false, 9, 9⟩ none).opacityProp :=
  (opacity_deterministic ⟨true, true, 1, 1⟩ ⟨true, false, 9, 9⟩ none rfl rfl).1

/-- Claim C9: the 20-level formula refines the 5-level table: for every k
in `[1, 5]` the table value at k equals the formula value at 4k, and in
particular the table value at 3 is 0x99000000 = 12 * 0x0CC00000. -/
theorem table_refines_formula (k : Int) (h1 : 1 ≤ k) (h2 : k ≤ 5) :
    opacity5 k = opacity20 (4 * k)
      ∧ opacity5 3 = 0x99000000
      ∧ (0x99000000 : Nat) = 12 * 0x0CC00000 := by
  refine ⟨?_, by decide, by norm_num⟩
  interval_cases k <;> decide

/-- Witness for C9 at k = 3. -/
theorem table_refines_formula_witness :
    opacity5 3 = opacity20 (4 * 3)
      ∧ opacity5 3 = 0x99000000
      ∧ (0x99000000 : Nat) = 12 * 0x0CC00000 :=
  table_refines_formula 3 (by decide) (by decide)

/-- Claim C10: in both variants the opacity is strictly increasing on the
clamped range, hence injective there; every level in range yields a
nonzero opacity; and the maximum level, and only it, yields 0xFF000000. -/
theorem opacity_strict_mono (a b : Int) :
    (1 ≤ a → a < b → b ≤ 20 → opacity20 a < opacity20 b)
      ∧ (1 ≤ a → a < b → b ≤ 5 → opacity5 a < opacity5 b)
      ∧ (1 ≤ a → a ≤ 20 → 1 ≤ b → b ≤ 20 →
          opacity20 a = opacity20 b → a = b)
      ∧ (1 ≤ a → a ≤ 5 → 1 ≤ b → b ≤ 5 → opacity5 a = opacity5 b → a = b)
      ∧ (1 ≤ a → a ≤ 20 → 0 < opacity20 a)
      ∧ (1 ≤ a → a ≤ 5 → 0 < opacity5 a)
      ∧ (1 ≤ a → a ≤ 20 → (opacity20 a = 0xFF000000 ↔ a = 20))
      ∧ (1 ≤ a → a ≤ 5 → (opacity5 a = 0xFF000000 ↔ a = 5)) := by
  refine ⟨?_, ?_, ?_, ?_, ?_, ?_, ?_, ?_⟩
  · intro ha hab hb
    rw [opacity20_closed a ha (by omega), opacity20_closed b (by omega) hb]
    omega
  · intro ha hab hb
    have ha5 : a ≤ 5 := by omega
    have hb1 : 1 ≤ b := by omega
    interval_cases a <;> interval_cases b <;> decide
  · intro h1 h2 h3 h4
    rw [opacity20_closed a h1 h2, opacity20_closed b h3 h4]
    omega
  · intro h1 h2 h3 h4
    interval_cases a <;> interval_cases b <;> decide
  · intro h1 h2
    rw [opacity20_closed a h1 h2]
    omega
  · intro h1 h2
    interval_cases a <;> decide
  · intro h1 h2
    rw [opacity20_closed a h1 h2]
    omega
  · intro h1 h2
    interval_cases a <;> decide

/-- Witness for C10 at levels 1 and 2. -/
theorem opacity_strict_mono_witness :
    opacity20 1 < opacity20 2 ∧ opacity5 1 < opacity5 2 :=
  ⟨(opacity_strict_mono 1 2).1 (by decide) (by decide) (by decide),
   (opacity_strict_mono 1 2).2.1 (by decide) (by decide) (by decide)⟩

end Dimmer
